import Mathlib

/-!
# Verification of the HAR streaming core

Shallow embedding of the streaming windowing / feature extraction engine of
the HAR repository and of its classification orchestration loop, together
with proofs settling the claims of the specification.

Sources embedded:
* `useSensors` hook (sample buffer `bufferRef`, `processBuffer`, `handleMotion`,
  `startRecording`, `stopRecording`);
* `classifyActivity` from the AI service module;
* the orchestration in the `App` component (`handleStart`, `handleStop`, the
  `setInterval` analysis loop).

Modelling conventions: JavaScript numbers are modelled as exact rationals `ℚ`
(the floating-point tolerance clauses of the spec hold a fortiori of exact
equality); `Math.sqrt` is modelled as `Real.sqrt` on the cast of the rational
radicand; a JS value that may be `null`/`undefined` is an `Option`; a function
that may throw is an `Except`.  Display-only state (`currentData`, the chart
history) is not modelled: no claim mentions it.
-/

namespace HAR

/-! ## Data model (`types.ts`) -/

/-- Structure `SensorData` from `types.ts`: six scalar channels plus a capture timestamp. -/
structure SensorData where
  x : ℚ
  y : ℚ
  z : ℚ
  alpha : ℚ
  beta : ℚ
  gamma : ℚ
  timestamp : ℚ

/-- Structure `ActivityPrediction` from `types.ts`. -/
structure ActivityPrediction where
  activity : String
  confidence : ℚ
  emoji : String
  reasoning : String
  timestamp : ℚ

/-- Enumeration `AppState` from `types.ts`. -/
inductive AppState where
  | IDLE
  | RECORDING
  | ANALYZING
  | ERROR

/-! ## Sample buffer (`useSensors`) -/

/-- Constant `MAX_BUFFER_SIZE = 100` (5 seconds of data at 20 Hz). -/
def MAX_BUFFER_SIZE : Nat := 100

/-- The buffer mutation performed by `handleMotion` while recording:
`bufferRef.current.push(newData)` followed by
`if (bufferRef.current.length > MAX_BUFFER_SIZE) bufferRef.current.shift()`. -/
def appendMotion (buffer : List SensorData) (s : SensorData) : List SensorData :=
  let b := buffer ++ [s]
  if MAX_BUFFER_SIZE < b.length then b.tail else b

/-- Appending a whole sequence of samples, one `handleMotion` at a time,
starting from the empty buffer of a fresh session. -/
def appendAll (xs : List SensorData) : List SensorData :=
  xs.foldl appendMotion []

lemma appendAll_eq_drop (xs : List SensorData) :
    appendAll xs = xs.drop (xs.length - MAX_BUFFER_SIZE) := by
  unfold appendAll
  have hM : MAX_BUFFER_SIZE = 100 := rfl
  induction xs using List.reverseRecOn with
  | nil => rfl
  | append_singleton ys a ih =>
      rw [List.foldl_append, List.foldl_cons, List.foldl_nil, ih]
      by_cases hlen : ys.length + 1 ≤ MAX_BUFFER_SIZE
      · have h0 : ys.length - MAX_BUFFER_SIZE = 0 := by omega
        have h1 : (ys ++ [a]).length - MAX_BUFFER_SIZE = 0 := by
          simp only [List.length_append, List.length_cons, List.length_nil]
          omega
        rw [h0, h1, List.drop_zero, List.drop_zero]
        unfold appendMotion
        simp only [List.length_append, List.length_cons, List.length_nil]
        have : ¬ MAX_BUFFER_SIZE < ys.length + (0 + 1) := by omega
        simp [this]
      · have hge : MAX_BUFFER_SIZE ≤ ys.length := by omega
        have hlendrop : (ys.drop (ys.length - MAX_BUFFER_SIZE)).length = MAX_BUFFER_SIZE := by
          rw [List.length_drop]; omega
        unfold appendMotion
        have hcond : MAX_BUFFER_SIZE < (ys.drop (ys.length - MAX_BUFFER_SIZE) ++ [a]).length := by
          simp only [List.length_append, hlendrop, List.length_cons, List.length_nil]
          omega
        simp only [hcond, if_true]
        have hne : ys.drop (ys.length - MAX_BUFFER_SIZE) ≠ [] := by
          intro hnil
          rw [hnil] at hlendrop
          simp [MAX_BUFFER_SIZE] at hlendrop
        obtain ⟨b, bs, hbs⟩ := List.exists_cons_of_ne_nil hne
        have htail : (ys.drop (ys.length - MAX_BUFFER_SIZE) ++ [a]).tail
            = (ys.drop (ys.length - MAX_BUFFER_SIZE)).tail ++ [a] := by
          rw [hbs]; rfl
        rw [htail, List.tail_drop]
        have harith : (ys ++ [a]).length - MAX_BUFFER_SIZE
            = ys.length - MAX_BUFFER_SIZE + 1 := by
          simp only [List.length_append, List.length_cons, List.length_nil]
          omega
        rw [harith, List.drop_append_of_le_length (by omega)]

lemma appendAll_length (xs : List SensorData) :
    (appendAll xs).length = min xs.length MAX_BUFFER_SIZE := by
  rw [appendAll_eq_drop, List.length_drop]
  omega

lemma appendAll_of_le (xs : List SensorData) (h : xs.length ≤ MAX_BUFFER_SIZE) :
    appendAll xs = xs := by
  rw [appendAll_eq_drop]
  have : xs.length - MAX_BUFFER_SIZE = 0 := by omega
  rw [this, List.drop_zero]

/-- C2: For every sequence of N samples appended one at a time (capacity
C = `MAX_BUFFER_SIZE` = 100), the resulting buffer has length `min N C` and
its contents are exactly the most recent `min N C` appended samples in
arrival order (it is the suffix of the arrival sequence obtained by dropping
the oldest `N - C` samples, so eviction is strictly oldest-first). -/
theorem c2_buffer_sliding_window (xs : List SensorData) :
    (appendAll xs).length = min xs.length MAX_BUFFER_SIZE ∧
    appendAll xs = xs.drop (xs.length - MAX_BUFFER_SIZE) := by
  exact ⟨appendAll_length xs, appendAll_eq_drop xs⟩

/-! ## Feature extraction (`processBuffer` in `useSensors`) -/

/-- The local helper `mean` inside `processBuffer`:
`arr.reduce((a, b) => a + b, 0) / arr.length`. -/
def mean (arr : List ℚ) : ℚ :=
  arr.foldl (fun a b => a + b) 0 / (arr.length : ℚ)

/-- The radicand of the local helper `std` inside `processBuffer`:
`arr.map(x => Math.pow(x - meanVal, 2)).reduce((a, b) => a + b, 0) / arr.length`. -/
def variancePop (arr : List ℚ) (meanVal : ℚ) : ℚ :=
  (arr.map (fun x => (x - meanVal) ^ 2)).foldl (fun a b => a + b) 0 / (arr.length : ℚ)

/-- The local helper `std` inside `processBuffer`: `Math.sqrt` of the
population variance around `meanVal`. -/
noncomputable def std (arr : List ℚ) (meanVal : ℚ) : ℝ :=
  Real.sqrt ((variancePop arr meanVal : ℚ) : ℝ)

/-- Structure `ProcessedFeatures` from `types.ts`: twelve scalars, mean and standard
deviation for each of the six channels. -/
structure ProcessedFeatures where
  acc_x_mean : ℚ
  acc_x_std : ℝ
  acc_y_mean : ℚ
  acc_y_std : ℝ
  acc_z_mean : ℚ
  acc_z_std : ℝ
  gyro_alpha_mean : ℚ
  gyro_alpha_std : ℝ
  gyro_beta_mean : ℚ
  gyro_beta_std : ℝ
  gyro_gamma_mean : ℚ
  gyro_gamma_std : ℝ

/-- Function `processBuffer` from `useSensors` (exposed as `getFeatures`): below 40
samples it returns `null`; otherwise the twelve per-channel statistics.
The source binds each channel array and mean to a local constant
(`accX`, `xMean`, ...); those bindings are inlined here. -/
noncomputable def processBuffer (data : List SensorData) : Option ProcessedFeatures :=
  if data.length < 40 then none
  else
    some
      { acc_x_mean := mean (data.map (fun d => d.x))
        acc_x_std := std (data.map (fun d => d.x)) (mean (data.map (fun d => d.x)))
        acc_y_mean := mean (data.map (fun d => d.y))
        acc_y_std := std (data.map (fun d => d.y)) (mean (data.map (fun d => d.y)))
        acc_z_mean := mean (data.map (fun d => d.z))
        acc_z_std := std (data.map (fun d => d.z)) (mean (data.map (fun d => d.z)))
        gyro_alpha_mean := mean (data.map (fun d => d.alpha))
        gyro_alpha_std := std (data.map (fun d => d.alpha)) (mean (data.map (fun d => d.alpha)))
        gyro_beta_mean := mean (data.map (fun d => d.beta))
        gyro_beta_std := std (data.map (fun d => d.beta)) (mean (data.map (fun d => d.beta)))
        gyro_gamma_mean := mean (data.map (fun d => d.gamma))
        gyro_gamma_std := std (data.map (fun d => d.gamma)) (mean (data.map (fun d => d.gamma))) }

/-- Reference formula for the arithmetic average of a list of channel
values, written with the mathematical list sum (spec section 4.2). -/
def refMean (xs : List ℚ) : ℚ := xs.sum / (xs.length : ℚ)

/-- Reference formula for the population variance (divide by N, not N-1)
around the arithmetic mean (spec section 4.2). -/
def refVarP (xs : List ℚ) : ℚ :=
  ((xs.map (fun x => (x - refMean xs) ^ 2)).sum) / (xs.length : ℚ)

/-- Reference formula for the population standard deviation. -/
noncomputable def refStdP (xs : List ℚ) : ℝ :=
  Real.sqrt ((refVarP xs : ℚ) : ℝ)

lemma foldl_add_eq (l : List ℚ) (c : ℚ) :
    l.foldl (fun a b => a + b) c = c + l.sum := by
  induction l generalizing c with
  | nil => simp
  | cons x xs ih => simp [ih, add_assoc]

lemma mean_eq_refMean (xs : List ℚ) : mean xs = refMean xs := by
  unfold mean refMean
  rw [foldl_add_eq, zero_add]

lemma variancePop_eq_refVarP (xs : List ℚ) :
    variancePop xs (mean xs) = refVarP xs := by
  unfold variancePop refVarP
  rw [foldl_add_eq, zero_add, mean_eq_refMean]

lemma std_eq_refStdP (xs : List ℚ) : std xs (mean xs) = refStdP xs := by
  unfold std refStdP
  rw [variancePop_eq_refVarP]

lemma processBuffer_eq_none (data : List SensorData) (h : data.length < 40) :
    processBuffer data = none := by
  simp [processBuffer, h]

lemma processBuffer_eq_some (data : List SensorData) (h : 40 ≤ data.length) :
    processBuffer data =
      some
        { acc_x_mean := mean (data.map (fun d => d.x))
          acc_x_std := std (data.map (fun d => d.x)) (mean (data.map (fun d => d.x)))
          acc_y_mean := mean (data.map (fun d => d.y))
          acc_y_std := std (data.map (fun d => d.y)) (mean (data.map (fun d => d.y)))
          acc_z_mean := mean (data.map (fun d => d.z))
          acc_z_std := std (data.map (fun d => d.z)) (mean (data.map (fun d => d.z)))
          gyro_alpha_mean := mean (data.map (fun d => d.alpha))
          gyro_alpha_std := std (data.map (fun d => d.alpha)) (mean (data.map (fun d => d.alpha)))
          gyro_beta_mean := mean (data.map (fun d => d.beta))
          gyro_beta_std := std (data.map (fun d => d.beta)) (mean (data.map (fun d => d.beta)))
          gyro_gamma_mean := mean (data.map (fun d => d.gamma))
          gyro_gamma_std := std (data.map (fun d => d.gamma)) (mean (data.map (fun d => d.gamma))) } := by
  rw [processBuffer, if_neg (by omega)]

lemma processBuffer_isSome (data : List SensorData) (h : 40 ≤ data.length) :
    (processBuffer data).isSome = true := by
  rw [processBuffer_eq_some data h]
  rfl

/-- A fixed sample with all channels zero, used as the concrete test input. -/
def sample0 : SensorData :=
  { x := 0, y := 0, z := 0, alpha := 0, beta := 0, gamma := 0, timestamp := 0 }

/-- C3: feature extraction returns the insufficient-data signal (`none`) on a
buffer of fewer than 40 samples and a full `ProcessedFeatures` on a buffer of
40 or more; in particular (third and fourth conjuncts) 39 appends into a fresh
buffer yield `none` and 40 appends yield a feature vector. -/
theorem c3_extraction_threshold (data : List SensorData) (s : SensorData) :
    (data.length < 40 → processBuffer data = none) ∧
    (40 ≤ data.length → (processBuffer data).isSome = true) ∧
    processBuffer (appendAll (List.replicate 39 s)) = none ∧
    (processBuffer (appendAll (List.replicate 40 s))).isSome = true := by
  refine ⟨fun h => processBuffer_eq_none data h,
          fun h => processBuffer_isSome data h, ?_, ?_⟩
  · apply processBuffer_eq_none
    rw [appendAll_length]
    simp [MAX_BUFFER_SIZE]
  · apply processBuffer_isSome
    rw [appendAll_length]
    simp [MAX_BUFFER_SIZE]

/-- Witness for C3 at a concrete sample: 39 appends give the
insufficient-data signal, one more append gives a feature vector. -/
theorem c3_extraction_threshold_witness :
    processBuffer (List.replicate 39 sample0) = none ∧
    (processBuffer (List.replicate 40 sample0)).isSome = true ∧
    processBuffer (appendAll (List.replicate 39 sample0)) = none ∧
    (processBuffer (appendAll (List.replicate 40 sample0))).isSome = true := by
  refine ⟨(c3_extraction_threshold (List.replicate 39 sample0) sample0).1 (by simp),
          (c3_extraction_threshold (List.replicate 40 sample0) sample0).2.1 (by simp),
          (c3_extraction_threshold [] sample0).2.2.1,
          (c3_extraction_threshold [] sample0).2.2.2⟩

lemma mean_replicate (k : Nat) (v : ℚ) (hk : k ≠ 0) :
    mean (List.replicate k v) = v := by
  have hk0 : (k : ℚ) ≠ 0 := Nat.cast_ne_zero.mpr hk
  unfold mean
  rw [foldl_add_eq, zero_add, List.sum_replicate, nsmul_eq_mul, List.length_replicate,
    mul_comm, mul_div_assoc, div_self hk0, mul_one]

lemma variancePop_replicate (k : Nat) (v : ℚ) :
    variancePop (List.replicate k v) v = 0 := by
  unfold variancePop
  rw [foldl_add_eq, zero_add, List.map_replicate]
  simp

lemma std_replicate (k : Nat) (v : ℚ) : std (List.replicate k v) v = 0 := by
  unfold std
  rw [variancePop_replicate]
  simp

lemma processBuffer_replicate (k : Nat) (s : SensorData) (hk : 40 ≤ k) :
    processBuffer (List.replicate k s) =
      some
        { acc_x_mean := s.x, acc_x_std := 0
          acc_y_mean := s.y, acc_y_std := 0
          acc_z_mean := s.z, acc_z_std := 0
          gyro_alpha_mean := s.alpha, gyro_alpha_std := 0
          gyro_beta_mean := s.beta, gyro_beta_std := 0
          gyro_gamma_mean := s.gamma, gyro_gamma_std := 0 } := by
  have hk0 : k ≠ 0 := by omega
  rw [processBuffer_eq_some _ (by simpa using hk)]
  simp only [List.map_replicate, Option.some.injEq, ProcessedFeatures.mk.injEq]
  refine ⟨?_, ?_, ?_, ?_, ?_, ?_, ?_, ?_, ?_, ?_, ?_, ?_⟩ <;>
    first
      | exact mean_replicate _ _ hk0
      | (rw [mean_replicate _ _ hk0]; exact std_replicate _ _)

/-- C4: for a window of at least 40 samples, the extracted mean of each
channel is the arithmetic average of the values on that channel and each extracted standard
deviation is the population standard deviation (divide by N, not N-1) around
that mean — exact equality with the reference formulas, in the exact-rational
model of JS numbers, hence within any floating-point tolerance; and (second
conjunct) for a window of k identical samples the extracted std of every
channel is 0 and every extracted mean is the channel value of that sample. -/
theorem c4_mean_std_match_reference (data : List SensorData) (s : SensorData)
    (k : Nat) (h : 40 ≤ data.length) (hk : 40 ≤ k) :
    processBuffer data =
      some
        { acc_x_mean := refMean (data.map (fun d => d.x))
          acc_x_std := refStdP (data.map (fun d => d.x))
          acc_y_mean := refMean (data.map (fun d => d.y))
          acc_y_std := refStdP (data.map (fun d => d.y))
          acc_z_mean := refMean (data.map (fun d => d.z))
          acc_z_std := refStdP (data.map (fun d => d.z))
          gyro_alpha_mean := refMean (data.map (fun d => d.alpha))
          gyro_alpha_std := refStdP (data.map (fun d => d.alpha))
          gyro_beta_mean := refMean (data.map (fun d => d.beta))
          gyro_beta_std := refStdP (data.map (fun d => d.beta))
          gyro_gamma_mean := refMean (data.map (fun d => d.gamma))
          gyro_gamma_std := refStdP (data.map (fun d => d.gamma)) } ∧
    processBuffer (List.replicate k s) =
      some
        { acc_x_mean := s.x, acc_x_std := 0
          acc_y_mean := s.y, acc_y_std := 0
          acc_z_mean := s.z, acc_z_std := 0
          gyro_alpha_mean := s.alpha, gyro_alpha_std := 0
          gyro_beta_mean := s.beta, gyro_beta_std := 0
          gyro_gamma_mean := s.gamma, gyro_gamma_std := 0 } := by
  constructor
  · rw [processBuffer_eq_some data h]
    simp only [std_eq_refStdP]
    simp only [mean_eq_refMean]
  · exact processBuffer_replicate k s hk

/-- Witness for C4: 40 copies of the all-zero sample yield the feature vector
with every mean 0 and every standard deviation 0. -/
theorem c4_mean_std_match_reference_witness :
    processBuffer (List.replicate 40 sample0) =
      some
        { acc_x_mean := 0, acc_x_std := 0
          acc_y_mean := 0, acc_y_std := 0
          acc_z_mean := 0, acc_z_std := 0
          gyro_alpha_mean := 0, gyro_alpha_std := 0
          gyro_beta_mean := 0, gyro_beta_std := 0
          gyro_gamma_mean := 0, gyro_gamma_std := 0 } := by
  exact (c4_mean_std_match_reference (List.replicate 40 sample0) sample0 40
    (by simp) (by norm_num)).2

/-- C9: for every window of length at least 1 the standard-deviation
computation is well defined: the divisor `arr.length` is nonzero, the
radicand handed to `Math.sqrt` (the population variance) is nonnegative —
so the square root is real, never NaN — and a window of length exactly 1
has standard deviation 0. -/
theorem c9_std_well_defined (arr : List ℚ) (h : 1 ≤ arr.length) :
    ((arr.length : ℚ) ≠ 0) ∧
    0 ≤ variancePop arr (mean arr) ∧
    (arr.length = 1 → std arr (mean arr) = 0) := by
  refine ⟨Nat.cast_ne_zero.mpr (by omega), ?_, ?_⟩
  · unfold variancePop
    rw [foldl_add_eq, zero_add]
    apply div_nonneg
    · apply List.sum_nonneg
      intro x hx
      obtain ⟨y, _, rfl⟩ := List.mem_map.mp hx
      exact sq_nonneg _
    · exact Nat.cast_nonneg _
  · intro h1
    obtain ⟨v, rfl⟩ := List.length_eq_one.mp h1
    have hm : mean [v] = v := by
      unfold mean
      simp
    rw [hm]
    have hv : variancePop [v] v = 0 := by
      unfold variancePop
      simp
    unfold std
    rw [hv]
    simp

/-- Witness for C9 at the singleton window `[5]`. -/
theorem c9_std_well_defined_witness :
    ((([(5 : ℚ)].length : ℕ) : ℚ) ≠ 0) ∧
    0 ≤ variancePop [(5 : ℚ)] (mean [(5 : ℚ)]) ∧
    std [(5 : ℚ)] (mean [(5 : ℚ)]) = 0 := by
  have h := c9_std_well_defined [(5 : ℚ)] (by simp)
  exact ⟨h.1, h.2.1, h.2.2 (by simp)⟩

/-! ## The classification service adapter (`classifyActivity` in the AI
service module)

The remote backend is opaque: a call either rejects (network/API error) or
resolves with a response whose `text` field may be absent, empty, or a JSON
string.  `JSON.parse` plus the schema cast is modelled by an arbitrary
`parse` function supplied with the outcome.  `Date.now()` is the `now`
argument.  A JS `throw` is `Except.error`. -/

/-- The outcome of `ai.models.generateContent` as observed by the caller. -/
inductive BackendResult where
  | failure (msg : String)
  | success (text : Option String)

/-- The shape `JSON.parse(jsonText) as Omit<ActivityPrediction, timestamp>`
produces on success. -/
structure ParsedResponse where
  activity : String
  confidence : ℚ
  emoji : String
  reasoning : String

/-- The degraded sentinel label built in the `catch` block of
`classifyActivity`. -/
def degradedLabel (now : ℚ) : ActivityPrediction :=
  { activity := "Unknown", confidence := 0, emoji := "❓",
    reasoning := "Could not connect to AI service.", timestamp := now }

/-- The body of the `try` block of `classifyActivity`: a rejected backend
call propagates; an absent or empty `response.text` throws
"Empty response from AI service"; a malformed JSON body throws from
`JSON.parse`; otherwise the parsed result is returned with `Date.now()`. -/
def classifyTry (res : BackendResult) (parse : String → Option ParsedResponse)
    (now : ℚ) : Except String ActivityPrediction :=
  match res with
  | BackendResult.failure msg => Except.error msg
  | BackendResult.success none => Except.error "Empty response from AI service"
  | BackendResult.success (some txt) =>
      if txt = "" then Except.error "Empty response from AI service"
      else
        match parse txt with
        | none => Except.error "JSON parse error"
        | some p =>
            Except.ok
              { activity := p.activity, confidence := p.confidence,
                emoji := p.emoji, reasoning := p.reasoning, timestamp := now }

/-- Function `classifyActivity`: if neither `AI_API_KEY` nor `API_KEY` is configured
(`hasApiKey = false`) it throws "API Key is missing" before any backend
call; otherwise the try body runs and any error it throws is caught and
replaced by the degraded sentinel label. -/
def classifyActivity (hasApiKey : Bool) (res : BackendResult)
    (parse : String → Option ParsedResponse) (now : ℚ) :
    Except String ActivityPrediction :=
  if hasApiKey = false then Except.error "API Key is missing"
  else
    match classifyTry res parse now with
    | Except.ok p => Except.ok p
    | Except.error _ => Except.ok (degradedLabel now)

lemma classifyActivity_failure (msg : String)
    (parse : String → Option ParsedResponse) (now : ℚ) :
    classifyActivity true (BackendResult.failure msg) parse now
      = Except.ok (degradedLabel now) := rfl

/-- Counterexample for C7: with no API key configured, `classifyActivity`
throws ("API Key is missing") instead of returning a degraded Label, even
for a perfectly well-formed backend outcome — so it is not true that for
every input every failure is expressed as a degraded Label returned as a
normal result. -/
theorem c7_counterexample :
    classifyActivity false
        (BackendResult.success (some "ok"))
        (fun _ => some { activity := "Walking", confidence := 90,
                         emoji := "🚶", reasoning := "steady gait" }) 0
      = Except.error "API Key is missing" := rfl

/-- C7 as amended: provided an API key is configured, `classifyActivity`
never throws — for every backend outcome (rejection, absent or empty
response text, malformed JSON, or a well-formed response) it returns a
normal result, and on every failing outcome that result is the degraded
sentinel label. -/
theorem c7_no_throw_with_key (res : BackendResult)
    (parse : String → Option ParsedResponse) (now : ℚ) :
    (∃ p, classifyActivity true res parse now = Except.ok p) ∧
    (∀ msg, classifyTry res parse now = Except.error msg →
      classifyActivity true res parse now = Except.ok (degradedLabel now)) := by
  constructor
  · unfold classifyActivity
    cases hc : classifyTry res parse now with
    | ok p => exact ⟨p, by simp [hc]⟩
    | error e => exact ⟨degradedLabel now, by simp [hc]⟩
  · intro msg hmsg
    unfold classifyActivity
    simp [hmsg]

/-- Witness for C7 as amended: a rejected backend call with a key configured
yields the degraded label as a normal result. -/
theorem c7_no_throw_with_key_witness :
    classifyActivity true (BackendResult.failure "network error")
        (fun _ => none) 5
      = Except.ok (degradedLabel 5) := by
  exact (c7_no_throw_with_key (BackendResult.failure "network error")
    (fun _ => none) 5).2 "network error" rfl

/-! ## The orchestration loop (`App` component plus `useSensors` state)

Single-threaded event-driven semantics: each externally triggered callback
(start button, stop button, a device-motion event, an interval tick firing,
an awaited backend call resolving) runs to its next suspension point
atomically.  The model state gathers the React state and refs that the
claims are about; display-only state (`currentData`) is omitted.

* `Event.start` — `handleStart` plus the analysis `useEffect` re-running on
  `isRecording` becoming true (which installs the interval).
* `Event.stop` — `handleStop` (which calls `stopRecording`, clears the
  context ref and clears the interval).  In-flight backend calls are NOT
  cancelled: their continuations stay pending.
* `Event.motion s` — `handleMotion` while the listener is installed.
* `Event.tick` — the `setInterval` callback firing: it reads
  `getFeatures()` and, if features exist, issues a backend request and
  suspends; the suspended continuation is recorded in `inflight`.
* `Event.resolve i hasApiKey res parse now` — the `i`-th pending backend
  call completing with outcome `res`; the continuation then runs
  `setPrediction(result)` and `lastPredictionRef.current = result.activity`.
  A rejection (`classifyActivity` returning `Except.error`, which in the
  source happens synchronously when no API key is configured) runs no
  continuation. -/

/-- A pending classification request: the feature snapshot and the
`previousActivity` argument it was issued with. -/
structure Request where
  features : ProcessedFeatures
  context : Option String

/-- The orchestrator state: `appState` and `prediction` React state from
`App`, the `lastPredictionRef` context ref, `isRecording` and the sample
buffer from `useSensors`, whether the analysis interval is installed, and
the pending backend calls. -/
structure AppModel where
  appState : AppState
  isRecording : Bool
  intervalActive : Bool
  buffer : List SensorData
  prediction : Option ActivityPrediction
  lastPrediction : Option String
  inflight : List Request

/-- Expression `lastPredictionRef.current || undefined`: the empty string and `null`
both become `undefined`. -/
def requestContext (o : Option String) : Option String :=
  match o with
  | some s => if s = "" then none else some s
  | none => none

/-- Expression `previousActivity || "None / Initializing"` inside the prompt
construction: the explicit no-prior-context marker. -/
def promptContext (previousActivity : Option String) : String :=
  match previousActivity with
  | some s => if s = "" then "None / Initializing" else s
  | none => "None / Initializing"

/-- Events the orchestrator reacts to. -/
inductive Event where
  | start
  | stop
  | motion (s : SensorData)
  | tick
  | resolve (i : Nat) (hasApiKey : Bool) (res : BackendResult)
      (parse : String → Option ParsedResponse) (now : ℚ)

/-- One atomic callback execution. -/
noncomputable def step (m : AppModel) (e : Event) : AppModel :=
  match e with
  | Event.start =>
      { m with prediction := none, lastPrediction := none,
               appState := AppState.RECORDING, isRecording := true,
               intervalActive := true }
  | Event.stop =>
      { m with isRecording := false, buffer := [],
               appState := AppState.IDLE, lastPrediction := none,
               intervalActive := false }
  | Event.motion s =>
      if m.isRecording then { m with buffer := appendMotion m.buffer s } else m
  | Event.tick =>
      if m.intervalActive then
        match processBuffer m.buffer with
        | none => m
        | some f =>
            { m with inflight :=
                m.inflight ++ [{ features := f,
                                 context := requestContext m.lastPrediction }] }
      else m
  | Event.resolve i hasApiKey res parse now =>
      if i < m.inflight.length then
        match classifyActivity hasApiKey res parse now with
        | Except.ok r =>
            { m with inflight := m.inflight.eraseIdx i,
                     prediction := some r,
                     lastPrediction := some r.activity }
        | Except.error _ =>
            { m with inflight := m.inflight.eraseIdx i }
      else m

/-- Running a sequence of callbacks. -/
noncomputable def run (m : AppModel) (es : List Event) : AppModel :=
  es.foldl step m

/-- The initial React state: idle, not recording, empty buffer, no
prediction, no context, nothing pending. -/
def initModel : AppModel :=
  { appState := AppState.IDLE, isRecording := false, intervalActive := false,
    buffer := [], prediction := none, lastPrediction := none, inflight := [] }

lemma run_cons (m : AppModel) (e : Event) (es : List Event) :
    run m (e :: es) = run (step m e) es := rfl

lemma run_append (m : AppModel) (l1 l2 : List Event) :
    run m (l1 ++ l2) = run (run m l1) l2 := by
  unfold run
  exact List.foldl_append step m l1 l2

lemma step_tick_some (m : AppModel) (f : ProcessedFeatures)
    (ha : m.intervalActive = true) (hf : processBuffer m.buffer = some f) :
    step m Event.tick =
      { m with inflight :=
          m.inflight ++ [{ features := f,
                           context := requestContext m.lastPrediction }] } := by
  simp [step, ha, hf]

lemma step_resolve_ok (m : AppModel) (i : Nat) (hasApiKey : Bool)
    (res : BackendResult) (parse : String → Option ParsedResponse) (now : ℚ)
    (r : ActivityPrediction) (hi : i < m.inflight.length)
    (hres : classifyActivity hasApiKey res parse now = Except.ok r) :
    step m (Event.resolve i hasApiKey res parse now) =
      { m with inflight := m.inflight.eraseIdx i,
               prediction := some r,
               lastPrediction := some r.activity } := by
  simp [step, hi, hres]

lemma run_motions (xs : List SensorData) (m : AppModel)
    (h : m.isRecording = true) :
    run m (xs.map Event.motion) =
      { m with buffer := xs.foldl appendMotion m.buffer } := by
  induction xs generalizing m with
  | nil => rfl
  | cons x rest ih =>
      rw [List.map_cons, run_cons]
      have hstep : step m (Event.motion x)
          = { m with buffer := appendMotion m.buffer x } := by
        simp [step, h]
      rw [hstep, ih { m with buffer := appendMotion m.buffer x } h,
        List.foldl_cons]

/-! ### Concrete test fixtures and run scaffolding -/

/-- The feature vector extracted from 40 copies of `sample0`. -/
noncomputable def zeroFeatures : ProcessedFeatures :=
  { acc_x_mean := 0, acc_x_std := 0
    acc_y_mean := 0, acc_y_std := 0
    acc_z_mean := 0, acc_z_std := 0
    gyro_alpha_mean := 0, gyro_alpha_std := 0
    gyro_beta_mean := 0, gyro_beta_std := 0
    gyro_gamma_mean := 0, gyro_gamma_std := 0 }

lemma processBuffer_rep40 :
    processBuffer (List.replicate 40 sample0) = some zeroFeatures :=
  processBuffer_replicate 40 sample0 (by norm_num)

lemma foldl_rep40 :
    (List.replicate 40 sample0).foldl appendMotion [] = List.replicate 40 sample0 :=
  appendAll_of_le _ (by simp [MAX_BUFFER_SIZE])

/-- A fixed well-formed backend classification result used in concrete runs. -/
def walkingResponse : ParsedResponse :=
  { activity := "Walking", confidence := 90, emoji := "🚶",
    reasoning := "steady gait" }

/-- A parse function that accepts any text as `walkingResponse`. -/
def parseWalking : String → Option ParsedResponse := fun _ => some walkingResponse

/-- The prediction a successful `walkingResponse` tick commits. -/
def walkingPrediction (now : ℚ) : ActivityPrediction :=
  { activity := "Walking", confidence := 90, emoji := "🚶",
    reasoning := "steady gait", timestamp := now }

lemma classify_walking (now : ℚ) :
    classifyActivity true (BackendResult.success (some "ok")) parseWalking now
      = Except.ok (walkingPrediction now) := rfl

/-- State reached from a fresh page by pressing start and receiving 40
motion samples: recording, interval armed, a 40-sample buffer, no
prediction, no context, nothing pending. -/
lemma runSessionWarm :
    run initModel (Event.start :: (List.replicate 40 sample0).map Event.motion) =
      { appState := AppState.RECORDING, isRecording := true,
        intervalActive := true, buffer := List.replicate 40 sample0,
        prediction := none, lastPrediction := none, inflight := [] } := by
  rw [run_cons]
  have hstart : step initModel Event.start =
      { appState := AppState.RECORDING, isRecording := true,
        intervalActive := true, buffer := [], prediction := none,
        lastPrediction := none, inflight := [] } := by
    simp [step, initModel]
  rw [hstart, run_motions _ _ rfl]
  rw [show (List.replicate 40 sample0).foldl appendMotion ([] : List SensorData)
      = List.replicate 40 sample0 from foldl_rep40]

/-! ### C1: a failed tick and the previous-activity context -/

/-- C1 as amended: when the backend call of a pending tick fails (the try
body throws: rejection, empty response, or malformed JSON), the committed
Label is the degraded sentinel (activity "Unknown", confidence 0) — but
the stored previous-activity context is NOT left unchanged: the
continuation runs `lastPredictionRef.current = result.activity`
unconditionally, so the context is overwritten with "Unknown". -/
theorem c1_failed_tick_overwrites_context (m : AppModel) (i : Nat)
    (res : BackendResult) (parse : String → Option ParsedResponse) (now : ℚ)
    (msg : String) (hi : i < m.inflight.length)
    (hfail : classifyTry res parse now = Except.error msg) :
    (step m (Event.resolve i true res parse now)).prediction
      = some (degradedLabel now) ∧
    (step m (Event.resolve i true res parse now)).lastPrediction
      = some "Unknown" := by
  have hca : classifyActivity true res parse now
      = Except.ok (degradedLabel now) := by
    unfold classifyActivity
    simp [hfail]
  rw [step_resolve_ok m i true res parse now (degradedLabel now) hi hca]
  exact ⟨rfl, rfl⟩

/-- Witness for the amended C1: a session holding context "Walking" with one
pending request whose backend call rejects ends the tick with the degraded
Label and context "Unknown". -/
theorem c1_failed_tick_overwrites_context_witness :
    (step { appState := AppState.RECORDING, isRecording := true,
            intervalActive := true, buffer := List.replicate 40 sample0,
            prediction := none, lastPrediction := some "Walking",
            inflight := [{ features := zeroFeatures, context := some "Walking" }] }
        (Event.resolve 0 true (BackendResult.failure "network error")
          (fun _ => none) 7)).prediction = some (degradedLabel 7) ∧
    (step { appState := AppState.RECORDING, isRecording := true,
            intervalActive := true, buffer := List.replicate 40 sample0,
            prediction := none, lastPrediction := some "Walking",
            inflight := [{ features := zeroFeatures, context := some "Walking" }] }
        (Event.resolve 0 true (BackendResult.failure "network error")
          (fun _ => none) 7)).lastPrediction = some "Unknown" := by
  exact c1_failed_tick_overwrites_context _ 0
    (BackendResult.failure "network error") (fun _ => none) 7 "network error"
    (by simp) rfl

/-- Counterexample for C1 as stated: a reachable run in which the context is
"Walking" before a failing tick and "Unknown" after it — the stored
previous-activity context is NOT unchanged across the failed tick (the
resulting Label is indeed the degraded sentinel). -/
theorem c1_counterexample :
    (run initModel ((Event.start :: (List.replicate 40 sample0).map Event.motion) ++
        [Event.tick,
         Event.resolve 0 true (BackendResult.success (some "ok")) parseWalking 3])).lastPrediction
      = some "Walking" ∧
    (run initModel (((Event.start :: (List.replicate 40 sample0).map Event.motion) ++
        [Event.tick,
         Event.resolve 0 true (BackendResult.success (some "ok")) parseWalking 3]) ++
        [Event.tick,
         Event.resolve 0 true (BackendResult.failure "network error") parseWalking 5])).prediction
      = some (degradedLabel 5) ∧
    (run initModel (((Event.start :: (List.replicate 40 sample0).map Event.motion) ++
        [Event.tick,
         Event.resolve 0 true (BackendResult.success (some "ok")) parseWalking 3]) ++
        [Event.tick,
         Event.resolve 0 true (BackendResult.failure "network error") parseWalking 5])).lastPrediction
      = some "Unknown" := by
  have hwalk : run initModel ((Event.start :: (List.replicate 40 sample0).map Event.motion) ++
      [Event.tick,
       Event.resolve 0 true (BackendResult.success (some "ok")) parseWalking 3]) =
      { appState := AppState.RECORDING, isRecording := true,
        intervalActive := true, buffer := List.replicate 40 sample0,
        prediction := some (walkingPrediction 3),
        lastPrediction := some "Walking", inflight := [] } := by
    rw [run_append, runSessionWarm, run_cons,
      step_tick_some _ zeroFeatures rfl processBuffer_rep40, run_cons,
      step_resolve_ok _ 0 true (BackendResult.success (some "ok")) parseWalking 3
        (walkingPrediction 3) (by simp) (classify_walking 3)]
    rfl
  have hfail : run initModel (((Event.start :: (List.replicate 40 sample0).map Event.motion) ++
      [Event.tick,
       Event.resolve 0 true (BackendResult.success (some "ok")) parseWalking 3]) ++
      [Event.tick,
       Event.resolve 0 true (BackendResult.failure "network error") parseWalking 5]) =
      { appState := AppState.RECORDING, isRecording := true,
        intervalActive := true, buffer := List.replicate 40 sample0,
        prediction := some (degradedLabel 5),
        lastPrediction := some "Unknown", inflight := [] } := by
    rw [run_append, hwalk, run_cons,
      step_tick_some _ zeroFeatures rfl processBuffer_rep40, run_cons,
      step_resolve_ok _ 0 true (BackendResult.failure "network error") parseWalking 5
        (degradedLabel 5) (by simp) (classifyActivity_failure "network error" parseWalking 5)]
    rfl
  rw [hwalk, hfail]
  exact ⟨rfl, ⟨rfl, rfl⟩⟩

/-! ### C5: responses arriving after stop -/

/-- C5 as amended: a backend response belonging to a request issued before
`stop()` DOES update the exposed Label and DOES mutate the previous-activity
context when it resolves after the stop — the source installs no staleness
guard, so the continuation runs `setPrediction` and sets
`lastPredictionRef.current` even though the session is stopped. -/
theorem c5_late_response_mutates_state (m : AppModel) (i : Nat)
    (res : BackendResult) (parse : String → Option ParsedResponse) (now : ℚ)
    (r : ActivityPrediction) (hstopped : m.isRecording = false)
    (hi : i < m.inflight.length)
    (hok : classifyActivity true res parse now = Except.ok r) :
    (step m (Event.resolve i true res parse now)).prediction = some r ∧
    (step m (Event.resolve i true res parse now)).lastPrediction
      = some r.activity := by
  rw [step_resolve_ok m i true res parse now r hi hok]
  exact ⟨rfl, rfl⟩

/-- Witness for the amended C5: a stopped session with one pending request
whose response arrives late gets its Label and context overwritten. -/
theorem c5_late_response_mutates_state_witness :
    (step { appState := AppState.IDLE, isRecording := false,
            intervalActive := false, buffer := [], prediction := none,
            lastPrediction := none,
            inflight := [{ features := zeroFeatures, context := some "Walking" }] }
        (Event.resolve 0 true (BackendResult.success (some "ok"))
          parseWalking 9)).prediction = some (walkingPrediction 9) ∧
    (step { appState := AppState.IDLE, isRecording := false,
            intervalActive := false, buffer := [], prediction := none,
            lastPrediction := none,
            inflight := [{ features := zeroFeatures, context := some "Walking" }] }
        (Event.resolve 0 true (BackendResult.success (some "ok"))
          parseWalking 9)).lastPrediction = some "Walking" := by
  exact c5_late_response_mutates_state _ 0 (BackendResult.success (some "ok"))
    parseWalking 9 (walkingPrediction 9) rfl (by simp) (classify_walking 9)

/-- Counterexample for C5 as stated: a reachable run in which a request is
issued, `stop()` runs (context cleared, prediction still `none`), and the
late response then updates the exposed Label to the response and the
context to "Walking" — the post-stop state IS modified by the late
response. -/
theorem c5_counterexample :
    (run initModel ((Event.start :: (List.replicate 40 sample0).map Event.motion) ++
        [Event.tick, Event.stop])).prediction = none ∧
    (run initModel ((Event.start :: (List.replicate 40 sample0).map Event.motion) ++
        [Event.tick, Event.stop])).lastPrediction = none ∧
    (run initModel (((Event.start :: (List.replicate 40 sample0).map Event.motion) ++
        [Event.tick, Event.stop]) ++
        [Event.resolve 0 true (BackendResult.success (some "ok")) parseWalking 9])).prediction
      = some (walkingPrediction 9) ∧
    (run initModel (((Event.start :: (List.replicate 40 sample0).map Event.motion) ++
        [Event.tick, Event.stop]) ++
        [Event.resolve 0 true (BackendResult.success (some "ok")) parseWalking 9])).lastPrediction
      = some "Walking" := by
  have hstopped : run initModel ((Event.start :: (List.replicate 40 sample0).map Event.motion) ++
      [Event.tick, Event.stop]) =
      { appState := AppState.IDLE, isRecording := false,
        intervalActive := false, buffer := [], prediction := none,
        lastPrediction := none,
        inflight := [{ features := zeroFeatures, context := none }] } := by
    rw [run_append, runSessionWarm, run_cons,
      step_tick_some _ zeroFeatures rfl processBuffer_rep40, run_cons]
    simp only [step]
    rfl
  have hlate : run initModel (((Event.start :: (List.replicate 40 sample0).map Event.motion) ++
      [Event.tick, Event.stop]) ++
      [Event.resolve 0 true (BackendResult.success (some "ok")) parseWalking 9]) =
      { appState := AppState.IDLE, isRecording := false,
        intervalActive := false, buffer := [],
        prediction := some (walkingPrediction 9),
        lastPrediction := some "Walking", inflight := [] } := by
    rw [run_append, hstopped, run_cons,
      step_resolve_ok _ 0 true (BackendResult.success (some "ok")) parseWalking 9
        (walkingPrediction 9) (by simp) (classify_walking 9)]
    rfl
  rw [hstopped, hlate]
  exact ⟨rfl, rfl, rfl, rfl⟩

/-! ### C6: overlapping ticks -/

/-- C6 as amended: the analysis interval installs no in-flight guard, so if
a tick becomes due while the backend call of a previous tick is unresolved the
new tick fires a second concurrent request — two consecutive due ticks with
features available add two pending requests. -/
theorem c6_ticks_do_overlap (m : AppModel) (f : ProcessedFeatures)
    (ha : m.intervalActive = true) (hf : processBuffer m.buffer = some f) :
    (step (step m Event.tick) Event.tick).inflight.length
      = m.inflight.length + 2 := by
  rw [step_tick_some m f ha hf,
    step_tick_some
      { m with inflight := m.inflight ++
          [{ features := f, context := requestContext m.lastPrediction }] }
      f ha hf]
  simp

/-- Witness for the amended C6: two due ticks over a warm 40-sample buffer
leave two requests pending at once. -/
theorem c6_ticks_do_overlap_witness :
    (step (step { appState := AppState.RECORDING, isRecording := true,
                  intervalActive := true,
                  buffer := List.replicate 40 sample0, prediction := none,
                  lastPrediction := none, inflight := [] }
        Event.tick) Event.tick).inflight.length = 2 := by
  have h := c6_ticks_do_overlap
    { appState := AppState.RECORDING, isRecording := true,
      intervalActive := true, buffer := List.replicate 40 sample0,
      prediction := none, lastPrediction := none, inflight := [] }
    zeroFeatures rfl processBuffer_rep40
  simpa using h

/-- Counterexample for C6 as stated: a reachable interleaving — start, warm
buffer, two interval firings before the first backend call resolves — in
which two backend requests are in flight at the same instant. -/
theorem c6_counterexample :
    (run initModel ((Event.start :: (List.replicate 40 sample0).map Event.motion) ++
        [Event.tick, Event.tick])).inflight.length = 2 := by
  rw [run_append, runSessionWarm, run_cons,
    step_tick_some _ zeroFeatures rfl processBuffer_rep40, run_cons,
    step_tick_some _ zeroFeatures rfl processBuffer_rep40]
  rfl

/-! ### C8: stop resets the window and the context -/

/-- C8: from every session state, `stop` (the `handleStop` path: it calls
`stopRecording`, which empties the buffer, and nulls the context ref)
resets the window length to 0 and clears the previous-activity context;
and after a subsequent `start` with fewer than 40 samples appended,
feature extraction still yields the insufficient-data signal. -/
theorem c8_stop_resets_window_and_context (m : AppModel)
    (samples : List SensorData) (h : samples.length < 40) :
    (step m Event.stop).buffer.length = 0 ∧
    (step m Event.stop).lastPrediction = none ∧
    processBuffer
      (run (step (step m Event.stop) Event.start)
        (samples.map Event.motion)).buffer = none := by
  have hM : MAX_BUFFER_SIZE = 100 := rfl
  refine ⟨by simp [step], by simp [step], ?_⟩
  have hrec : (step (step m Event.stop) Event.start).isRecording = true := by
    simp [step]
  have hbuf : (run (step (step m Event.stop) Event.start)
      (samples.map Event.motion)).buffer = appendAll samples := by
    rw [run_motions samples _ hrec]
    show samples.foldl appendMotion (step (step m Event.stop) Event.start).buffer
      = appendAll samples
    have hempty : (step (step m Event.stop) Event.start).buffer = [] := by
      simp [step]
    rw [hempty]
    rfl
  rw [hbuf]
  apply processBuffer_eq_none
  rw [appendAll_length]
  omega

/-- Witness for C8: a mid-session state (50 buffered samples, context
"Running") stopped, restarted and fed 39 samples still reports
insufficient data. -/
theorem c8_stop_resets_window_and_context_witness :
    (step { appState := AppState.RECORDING, isRecording := true,
            intervalActive := true, buffer := List.replicate 50 sample0,
            prediction := none, lastPrediction := some "Running",
            inflight := [] } Event.stop).buffer.length = 0 ∧
    (step { appState := AppState.RECORDING, isRecording := true,
            intervalActive := true, buffer := List.replicate 50 sample0,
            prediction := none, lastPrediction := some "Running",
            inflight := [] } Event.stop).lastPrediction = none ∧
    processBuffer
      (run (step (step { appState := AppState.RECORDING, isRecording := true,
                         intervalActive := true,
                         buffer := List.replicate 50 sample0,
                         prediction := none, lastPrediction := some "Running",
                         inflight := [] } Event.stop) Event.start)
        ((List.replicate 39 sample0).map Event.motion)).buffer = none := by
  exact c8_stop_resets_window_and_context _ (List.replicate 39 sample0) (by simp)

/-! ### C10: the first request context of a fresh session -/

/-- C10 as amended: `handleStart` clears the displayed prediction and the
previous-activity context, and — provided no late response left over from an
earlier session resolves between the start and the first due
tick — the first classification request of the new session is issued with
no previous-activity argument, which the prompt renders as the explicit
"None / Initializing" marker. -/
theorem c10_start_clears_context (m : AppModel) (samples : List SensorData)
    (f : ProcessedFeatures)
    (hf : processBuffer (samples.foldl appendMotion m.buffer) = some f) :
    (step m Event.start).prediction = none ∧
    (step m Event.start).lastPrediction = none ∧
    (step (run (step m Event.start) (samples.map Event.motion))
        Event.tick).inflight
      = m.inflight ++ [{ features := f, context := none }] ∧
    promptContext none = "None / Initializing" := by
  have hstart : step m Event.start =
      { appState := AppState.RECORDING, isRecording := true,
        intervalActive := true, buffer := m.buffer, prediction := none,
        lastPrediction := none, inflight := m.inflight } := by
    simp [step]
  refine ⟨by rw [hstart], by rw [hstart], ?_, rfl⟩
  rw [hstart, run_motions samples _ rfl]
  show (step { appState := AppState.RECORDING, isRecording := true,
               intervalActive := true,
               buffer := samples.foldl appendMotion m.buffer,
               prediction := none, lastPrediction := none,
               inflight := m.inflight }
    Event.tick).inflight = m.inflight ++ [{ features := f, context := none }]
  rw [step_tick_some
    { appState := AppState.RECORDING, isRecording := true,
      intervalActive := true, buffer := samples.foldl appendMotion m.buffer,
      prediction := none, lastPrediction := none, inflight := m.inflight }
    f rfl hf]
  rfl

/-- Witness for the amended C10: from a fresh page, start plus 40 samples
plus the first tick issues the request with no prior-activity context. -/
theorem c10_start_clears_context_witness :
    (step initModel Event.start).prediction = none ∧
    (step initModel Event.start).lastPrediction = none ∧
    (step (run (step initModel Event.start)
        ((List.replicate 40 sample0).map Event.motion)) Event.tick).inflight
      = [{ features := zeroFeatures, context := none }] ∧
    promptContext none = "None / Initializing" := by
  exact c10_start_clears_context initModel (List.replicate 40 sample0)
    zeroFeatures
    (by
      show processBuffer
          ((List.replicate 40 sample0).foldl appendMotion ([] : List SensorData))
        = some zeroFeatures
      rw [foldl_rep40]
      exact processBuffer_rep40)

/-- Counterexample for C10 as stated: a reachable run in which session one
leaves a request in flight, `stop` then `start` begin session two with a
cleared context, the late session-one response then resurrects
"Walking" into the context, and the FIRST classification request of
session two is issued with context "Walking" — not with the
no-prior-context marker. -/
theorem c10_counterexample :
    (run initModel ((Event.start :: (List.replicate 40 sample0).map Event.motion) ++
        [Event.tick, Event.stop, Event.start])).lastPrediction = none ∧
    (run initModel ((((Event.start :: (List.replicate 40 sample0).map Event.motion) ++
        [Event.tick, Event.stop, Event.start,
         Event.resolve 0 true (BackendResult.success (some "ok")) parseWalking 3]) ++
        (List.replicate 40 sample0).map Event.motion) ++
        [Event.tick])).inflight.map (fun r => r.context) = [some "Walking"] := by
  have hfresh : run initModel ((Event.start :: (List.replicate 40 sample0).map Event.motion) ++
      [Event.tick, Event.stop, Event.start]) =
      { appState := AppState.RECORDING, isRecording := true,
        intervalActive := true, buffer := [], prediction := none,
        lastPrediction := none,
        inflight := [{ features := zeroFeatures, context := none }] } := by
    rw [run_append, runSessionWarm, run_cons,
      step_tick_some _ zeroFeatures rfl processBuffer_rep40, run_cons, run_cons]
    simp only [step]
    rfl
  have hlate : run initModel ((Event.start :: (List.replicate 40 sample0).map Event.motion) ++
      [Event.tick, Event.stop, Event.start,
       Event.resolve 0 true (BackendResult.success (some "ok")) parseWalking 3]) =
      { appState := AppState.RECORDING, isRecording := true,
        intervalActive := true, buffer := [],
        prediction := some (walkingPrediction 3),
        lastPrediction := some "Walking", inflight := [] } := by
    have hsplit : ((Event.start :: (List.replicate 40 sample0).map Event.motion) ++
        [Event.tick, Event.stop, Event.start,
         Event.resolve 0 true (BackendResult.success (some "ok")) parseWalking 3]) =
        (((Event.start :: (List.replicate 40 sample0).map Event.motion) ++
          [Event.tick, Event.stop, Event.start]) ++
          [Event.resolve 0 true (BackendResult.success (some "ok")) parseWalking 3]) := by
      simp
    rw [hsplit, run_append, hfresh, run_cons,
      step_resolve_ok _ 0 true (BackendResult.success (some "ok")) parseWalking 3
        (walkingPrediction 3) (by simp) (classify_walking 3)]
    rfl
  have hsecond : run initModel ((((Event.start :: (List.replicate 40 sample0).map Event.motion) ++
      [Event.tick, Event.stop, Event.start,
       Event.resolve 0 true (BackendResult.success (some "ok")) parseWalking 3]) ++
      (List.replicate 40 sample0).map Event.motion) ++
      [Event.tick]) =
      { appState := AppState.RECORDING, isRecording := true,
        intervalActive := true, buffer := List.replicate 40 sample0,
        prediction := some (walkingPrediction 3),
        lastPrediction := some "Walking",
        inflight := [{ features := zeroFeatures,
                       context := requestContext (some "Walking") }] } := by
    rw [run_append, run_append, hlate, run_motions _ _ rfl]
    rw [show (List.replicate 40 sample0).foldl appendMotion ([] : List SensorData)
        = List.replicate 40 sample0 from foldl_rep40]
    rw [run_cons, step_tick_some _ zeroFeatures rfl processBuffer_rep40]
    rfl
  refine ⟨by rw [hfresh], ?_⟩
  rw [hsecond]
  rfl

end HAR
